import Mathlib

/-!
Verification of `prefect-openai` (`prefect_openai/completion.py`) against its
natural-language specification.

The development is a shallow embedding of the Python module:

* Python runtime values that flow through the code are `PyValue`.
* A Python exception instance is `PyExc`: its runtime type descriptor, its
  `args` tuple, its attributes (for `getattr`), its `str()` form, and its
  attached traceback.
* `inspect.signature` on an exception type either yields a parameter list or
  raises `ValueError` (built-in types without a signature); this is the
  `Option (List SigParam)` field of `PyExcType`.
* The OpenAI client and the Prefect block store are external collaborators;
  they are modelled as an environment `ApiEnv` of fallible calls
  (`Except PyExc`), which the embedded functions thread explicitly.
* `dict(...)` / `dict.update` are association lists with Python's update
  semantics (existing key overwritten in place, new key appended).
* Raising is explicit: `Raised` records the raised exception together with
  its `cause` (set by `raise ... from ...`) and its `context`
  (set implicitly by the interpreter when an exception is raised while
  another is being handled).
-/

/-- A Python runtime value, as far as this module manipulates them. -/
inductive PyValue where
  | none : PyValue
  | str : String → PyValue
  | int : ℤ → PyValue
  | float : ℚ → PyValue
  | bool : Bool → PyValue
deriving DecidableEq, Repr

/-- `str(v)` for the values above (CPython's rendering). Only used to build
the default `str()` form of a reconstructed exception, which no code path of
the module reads back. -/
def PyValue.pyStr : PyValue → String
  | .none => "None"
  | .str s => s
  | .int n => toString n
  | .float q => toString q
  | .bool b => if b then "True" else "False"

/-- `repr(v)`; string escaping inside `repr` of a `str` is elided. -/
def PyValue.pyRepr : PyValue → String
  | .none => "None"
  | .str s => "\x27" ++ s ++ "\x27"
  | .int n => toString n
  | .float q => toString q
  | .bool b => if b then "True" else "False"

/-- The kinds of parameters reported by `inspect.signature`. -/
inductive ParamKind where
  | positionalOnly
  | positionalOrKeyword
  | varPositional
  | keywordOnly
  | varKeyword
deriving DecidableEq, Repr

/-- One parameter of an inspected constructor signature. -/
structure SigParam where
  name : String
  kind : ParamKind
deriving DecidableEq, Repr

/-- The runtime type of a Python exception, with the two facts about it the
module consults: whether `inspect.signature` succeeds on it (`some` the
parameter list, `none` models the `ValueError` raised for built-ins such as
`ZeroDivisionError`), and whether the type is a subclass of `Exception`
(`except Exception` catches it) as opposed to a bare `BaseException` such as
`KeyboardInterrupt`. -/
structure PyExcType where
  name : String
  signature : Option (List SigParam)
  isExceptionSubclass : Bool
deriving DecidableEq, Repr

/-- A Python exception instance: its runtime type, the `args` tuple stored by
`BaseException.__new__`, its attribute dictionary (consulted by `getattr`),
its `str()` form, and the traceback attached to it (an opaque identifier). -/
structure PyExc where
  ty : PyExcType
  args : List PyValue
  attrs : List (String × PyValue)
  strForm : String
  tb : Option ℕ
deriving DecidableEq, Repr

/-- `getattr(exc, name, None)`: first attribute with that name, else `None`. -/
def getattrOrNone (exc : PyExc) (name : String) : PyValue :=
  match exc.attrs.find? (fun kv => kv.1 = name) with
  | some kv => kv.2
  | none => PyValue.none

/-- Lines 175-184 of `completion.py`: the keyword-argument recovery
```
try:
    signature = inspect.signature(exc_type)
    kwargs = {param.name: getattr(exc, param.name, None)
              for param in signature.parameters.values()
              if param.kind == param.KEYWORD_ONLY}
except ValueError:
    kwargs = {}
```
`inspect.signature` raising `ValueError` is the `none` branch. -/
def recoverKwargs (exc : PyExc) : List (String × PyValue) :=
  match exc.ty.signature with
  | some sig =>
      (sig.filter (fun p => p.kind = ParamKind.keywordOnly)).map
        (fun p => (p.name, getattrOrNone exc p.name))
  | none => []

/-- The characters `str.strip()` removes (the ASCII part of `str.isspace`). -/
def isPySpace (c : Char) : Bool :=
  c = ' ' || c = '\t' || c = '\n' || c = '\x0b' || c = '\x0c' || c = '\r'

/-- Python `s.strip()`: drop leading and trailing whitespace. -/
def pyStrip (s : String) : String :=
  String.mk (((s.toList.dropWhile isPySpace).reverse.dropWhile isPySpace).reverse)

/-- `OpenAICredentials` (`credentials.py`): the fields the completion module
carries; the secret is kept as the plain value here because nothing in the
verified paths prints it. -/
structure OpenAICredentials where
  api_key : String
  organization : Option String
deriving DecidableEq, Repr

/-- The `CompletionModel` block (`completion.py` lines 21-83): credentials
plus the six request-default fields. -/
structure CompletionModel where
  openai_credentials : OpenAICredentials
  model : String
  temperature : ℚ
  max_tokens : ℤ
  suffix : Option String
  echo : Bool
  timeout : Option ℚ
deriving DecidableEq, Repr

/-- A `CompletionModel` with every field at its declared pydantic default
(`model="text-curie-001"`, `temperature=0.5`, `max_tokens=16`,
`suffix=None`, `echo=False`, `timeout=None`). -/
def CompletionModel.withDefaults (creds : OpenAICredentials) : CompletionModel :=
  ⟨creds, "text-curie-001", 0.5, 16, Option.none, false, Option.none⟩

/-- First value bound to key `k` in a Python-dict association list. -/
def lookupKey (k : String) : List (String × PyValue) → Option PyValue
  | [] => Option.none
  | kv :: rest => if kv.1 = k then some kv.2 else lookupKey k rest

/-- `d[k] = v` on a Python dict: overwrite in place if the key exists,
otherwise append the new binding. -/
def dictSet (d : List (String × PyValue)) (k : String) (v : PyValue) :
    List (String × PyValue) :=
  if d.any (fun kv => kv.1 = k) then
    d.map (fun kv => if kv.1 = k then (k, v) else kv)
  else
    d ++ [(k, v)]

/-- `d.update(overrides)` on Python dicts: each override applied in order. -/
def dictUpdate (d overrides : List (String × PyValue)) :
    List (String × PyValue) :=
  overrides.foldl (fun acc kv => dictSet acc kv.1 kv.2) d

/-- `O if O is str else None` marshalled into a `PyValue`. -/
def optStr : Option String → PyValue
  | some s => PyValue.str s
  | Option.none => PyValue.none

/-- An optional float marshalled into a `PyValue`. -/
def optFloat : Option ℚ → PyValue
  | some q => PyValue.float q
  | Option.none => PyValue.none

/-- Lines 146-153: the `input_kwargs` dict built from the block's defaults.
```
input_kwargs = dict(model=self.model, temperature=self.temperature,
    max_tokens=self.max_tokens, suffix=self.suffix, echo=self.echo,
    timeout=self.timeout)
``` -/
def completionDefaults (cm : CompletionModel) : List (String × PyValue) :=
  [("model", PyValue.str cm.model),
   ("temperature", PyValue.float cm.temperature),
   ("max_tokens", PyValue.int cm.max_tokens),
   ("suffix", optStr cm.suffix),
   ("echo", PyValue.bool cm.echo),
   ("timeout", optFloat cm.timeout)]

/-- Line 154, `input_kwargs.update(acreate_kwargs)`: the effective parameter
map sent with the request. -/
def effectiveParams (cm : CompletionModel) (acreate_kwargs : List (String × PyValue)) :
    List (String × PyValue) :=
  dictUpdate (completionDefaults cm) acreate_kwargs

/-- One choice of an OpenAI completion response. -/
structure Choice where
  text : String
deriving DecidableEq, Repr

/-- The usage section of a completion response. -/
structure Usage where
  total_tokens : ℤ
deriving DecidableEq, Repr

/-- An OpenAI completion response, as far as the module reads it. -/
structure Response where
  choices : List Choice
  usage : Usage
deriving DecidableEq, Repr

/-- The external collaborators: `Block.load` by block name, and
`client.Completion.acreate(prompt=..., **input_kwargs)`. Either call may
raise, which is the `Except.error` side. -/
structure ApiEnv where
  load : String → Except PyExc CompletionModel
  acreate : String → List (String × PyValue) → Except PyExc Response

/-- Lines 105-163, `CompletionModel.submit_prompt`: build `input_kwargs` from
the block defaults, overlay the caller's kwargs, and issue the single
`acreate` request. The success-path log line writes no observable state and
is elided; any error from the client propagates unmodified. -/
def submit_prompt (cm : CompletionModel) (env : ApiEnv) (prompt : String)
    (acreate_kwargs : List (String × PyValue)) : Except PyExc Response :=
  env.acreate prompt (effectiveParams cm acreate_kwargs)

/-- Line 188: `prompt = f"Summarize: \x60\x60\x60{str(exc)}\x60\x60\x60."`. -/
def promptFor (exc : PyExc) : String :=
  "Summarize: ```" ++ exc.strForm ++ "```."

/-- `str()` of an exception built by `BaseException.__str__`: empty for no
args, `str(args[0])` for one, `repr(args)` otherwise. -/
def defaultExcStr : List PyValue → String
  | [] => ""
  | [a] => a.pyStr
  | args => "(" ++ String.intercalate ", " (args.map PyValue.pyRepr) ++ ")"

/-- `exc_type(new_msg, *args, **kwargs)`: the reconstruction call of line
195. The instance records the positional arguments as its `args` tuple and
the keyword arguments as attributes (the module's own introspection
assumption: keyword-only constructor parameters are readable back as
attributes of the same name); no traceback is attached yet. -/
def construct (ty : PyExcType) (posArgs : List PyValue)
    (kwArgs : List (String × PyValue)) : PyExc :=
  ⟨ty, posArgs, kwArgs, defaultExcStr posArgs, Option.none⟩

/-- A raise event: the exception, its `__cause__` (explicitly set by
`raise ... from ...`, otherwise absent) and its `__context__` (set by the
interpreter when the raise happens while another exception is handled). -/
structure Raised where
  exc : PyExc
  cause : Option PyExc
  context : Option PyExc
deriving DecidableEq, Repr

/-- The exception a chained failure report leads to next: `__cause__` when
explicitly set, else the implicit `__context__` — CPython's display rule. -/
def Raised.chainedCause (r : Raised) : Option PyExc :=
  r.cause.orElse (fun _ => r.context)

/-- `IndexError` as raised by `response.choices[0]` on an empty list. -/
def indexErrorType : PyExcType :=
  ⟨"IndexError", Option.none, true⟩

/-- The `IndexError` instance for indexing an empty list. -/
def indexErrorEmptyList : PyExc :=
  ⟨indexErrorType, [PyValue.str "list index out of range"], [],
    "list index out of range", Option.none⟩

/-- Lines 166-195, `_raise_interpreted_exc(block_name, exc)`, executed while
`exc` is the exception being handled (so `sys.exc_info()` still reports it):

* gather `args = exc.args[1:]` and the keyword-only `kwargs` (best effort);
* `CompletionModel.load(block_name)`; a failure there propagates, picking up
  `exc` as its implicit context;
* submit the fixed-template prompt; a failure there propagates the same way;
* take `response.choices[0].text.strip()` (an empty `choices` list makes the
  indexing raise `IndexError`, again with `exc` as context);
* raise `exc_type(new_exc_msg, *args, **kwargs).with_traceback(exc_traceback)
  from exc`, which sets both the explicit cause and the implicit context. -/
def raiseInterpretedExc (env : ApiEnv) (block_name : String) (exc : PyExc) :
    Raised :=
  let args := exc.args.drop 1
  let kwargs := recoverKwargs exc
  match env.load block_name with
  | Except.error f => ⟨f, Option.none, some exc⟩
  | Except.ok completion_model =>
    match submit_prompt completion_model env (promptFor exc) [] with
    | Except.error f => ⟨f, Option.none, some exc⟩
    | Except.ok response =>
      match response.choices with
      | [] => ⟨indexErrorEmptyList, Option.none, some exc⟩
      | choice0 :: _ =>
        let interpretation := pyStrip choice0.text
        let new_exc_msg := exc.strForm ++ "\nOpenAI: " ++ interpretation
        let newExc := construct exc.ty (PyValue.str new_exc_msg :: args) kwargs
        ⟨{ newExc with tb := exc.tb }, some exc, some exc⟩

/-- What the decorand of `interpret_exception`'s inner `decorator` can be:
a Prefect `Flow`, a Prefect `Task`, or a plain callable (sync or async,
distinguished by `is_async_fn`). -/
inductive FnKind where
  | flow
  | task
  | plainSync
  | plainAsync
deriving DecidableEq, Repr

/-- `isinstance(fn, (Flow, Task))`. -/
def FnKind.isFlowOrTask : FnKind → Bool
  | .flow => true
  | .task => true
  | .plainSync => false
  | .plainAsync => false

/-- `is_async_fn(fn)` for a plain callable. -/
def FnKind.isAsyncFn : FnKind → Bool
  | .plainAsync => true
  | _ => false

/-- Which of the two wrappers `decorator` returns. -/
inductive WrapperChoice where
  | sync
  | async
deriving DecidableEq, Repr

/-- `ValueError` carries no inspectable signature and is an `Exception`. -/
def valueErrorType : PyExcType :=
  ⟨"ValueError", Option.none, true⟩

/-- The usage error of lines 231-234. -/
def interpretNestedError : PyExc :=
  ⟨valueErrorType,
    [PyValue.str ("interpret_exception should be nested under the flow / task decorator, e.g. `@flow` -> `@interpret_exception(\x27curie\x27)` -> `def function()`")],
    [],
    "interpret_exception should be nested under the flow / task decorator, e.g. `@flow` -> `@interpret_exception(\x27curie\x27)` -> `def function()`",
    Option.none⟩

/-- Lines 226-258, the inner `decorator(fn)` of `interpret_exception`:
reject a `Flow` or `Task` immediately with `ValueError`; otherwise return
`async_wrapper` when `is_async_fn(fn)` and `sync_wrapper` otherwise.
Nothing of `fn` is executed here. -/
def decorator (fn : FnKind) : Except PyExc WrapperChoice :=
  if fn.isFlowOrTask then
    Except.error interpretNestedError
  else if fn.isAsyncFn then
    Except.ok WrapperChoice.async
  else
    Except.ok WrapperChoice.sync

/-- What one invocation of the wrapped callable does: return a value, or
raise an exception instance (whose type says whether `except Exception`
catches it). -/
inductive CallOutcome (α : Type) where
  | ok : α → CallOutcome α
  | raises : PyExc → CallOutcome α
deriving DecidableEq, Repr

/-- The observable result of a wrapper invocation: a returned value or a
raise event with its chain information. -/
inductive WrapResult (α : Type) where
  | ok : α → WrapResult α
  | raised : Raised → WrapResult α
deriving DecidableEq, Repr

/-- Lines 236-244, `sync_wrapper`: run `fn`; `except Exception as exc`
diverts into `_raise_interpreted_exc(block_name, exc)`, which always raises;
anything that is not an `Exception` instance is not caught and propagates
unchanged, with no chain information added and no interpretation activity. -/
def sync_wrapper (env : ApiEnv) (block_name : String)
    (fnResult : CallOutcome α) : WrapResult α :=
  match fnResult with
  | CallOutcome.ok v => WrapResult.ok v
  | CallOutcome.raises exc =>
    if exc.ty.isExceptionSubclass then
      WrapResult.raised (raiseInterpretedExc env block_name exc)
    else
      WrapResult.raised ⟨exc, Option.none, Option.none⟩

/-- Lines 247-255, `async_wrapper`: identical control flow to
`sync_wrapper`, with the call and the helper awaited. -/
def async_wrapper (env : ApiEnv) (block_name : String)
    (fnResult : CallOutcome α) : WrapResult α :=
  match fnResult with
  | CallOutcome.ok v => WrapResult.ok v
  | CallOutcome.raises exc =>
    if exc.ty.isExceptionSubclass then
      WrapResult.raised (raiseInterpretedExc env block_name exc)
    else
      WrapResult.raised ⟨exc, Option.none, Option.none⟩

/-- Message slot of a wrapper outcome: the first `args` entry of the raised
exception, when the outcome is a raise. -/
def WrapResult.raisedMessage : WrapResult α → Option PyValue
  | .raised r => r.exc.args.head?
  | .ok _ => Option.none

theorem lookupKey_append (k : String) (d e : List (String × PyValue)) :
    lookupKey k (d ++ e) =
      Option.orElse (lookupKey k d) (fun _ => lookupKey k e) := by
  induction d with
  | nil => simp [lookupKey, Option.orElse]
  | cons kv tl ih =>
    by_cases h : kv.1 = k
    · simp [lookupKey, h, Option.orElse]
    · simp [lookupKey, h, ih]

theorem lookupKey_eq_none (k : String) (d : List (String × PyValue))
    (h : d.any (fun kv => kv.1 = k) = false) : lookupKey k d = Option.none := by
  induction d with
  | nil => rfl
  | cons kv tl ih =>
    simp only [List.any_cons, Bool.or_eq_false_iff, decide_eq_false_iff_not] at h
    simp [lookupKey, h.1, ih h.2]

theorem lookupKey_map_self (k : String) (v : PyValue) (d : List (String × PyValue))
    (h : d.any (fun kv => kv.1 = k) = true) :
    lookupKey k (d.map (fun kv => if kv.1 = k then (k, v) else kv)) = some v := by
  induction d with
  | nil => simp at h
  | cons kv tl ih =>
    by_cases hk : kv.1 = k
    · simp [lookupKey, hk]
    · simp only [List.any_cons, Bool.or_eq_true, decide_eq_true_eq] at h
      rcases h with h | h
    
      · exact absurd h hk
      · simp [lookupKey, hk, ih h]

theorem lookupKey_map_other (k k' : String) (v : PyValue)
    (d : List (String × PyValue)) (hne : k' ≠ k) :
    lookupKey k' (d.map (fun kv => if kv.1 = k then (k, v) else kv)) =
      lookupKey k' d := by
  induction d with
  | nil => rfl
  | cons kv tl ih =>
    by_cases hk : kv.1 = k
    · simp [lookupKey, hk, Ne.symm hne, ih]
    · simp [lookupKey, hk, ih]

theorem lookupKey_dictSet_self (k : String) (v : PyValue)
    (d : List (String × PyValue)) :
    lookupKey k (dictSet d k v) = some v := by
  by_cases h : d.any (fun kv => kv.1 = k)
  · simp [dictSet, h, lookupKey_map_self k v d h]
  · have h2 : lookupKey k d = Option.none :=
      lookupKey_eq_none k d (by simp only [Bool.not_eq_true] at h; exact h)
    simp [dictSet, h, lookupKey_append, h2, lookupKey, Option.orElse]

theorem lookupKey_dictSet_other (k k' : String) (v : PyValue)
    (d : List (String × PyValue)) (hne : k' ≠ k) :
    lookupKey k' (dictSet d k v) = lookupKey k' d := by
  by_cases h : d.any (fun kv => kv.1 = k)
  · simp [dictSet, h, lookupKey_map_other k k' v d hne]
  · have h2 : lookupKey k' [(k, v)] = Option.none := by
      simp [lookupKey, Ne.symm hne]
    rw [dictSet, if_neg h, lookupKey_append, h2]
    cases lookupKey k' d <;> rfl

theorem lookupKey_eq_none_of_not_mem (k : String) (d : List (String × PyValue))
    (h : k ∉ d.map Prod.fst) : lookupKey k d = Option.none := by
  induction d with
  | nil => rfl
  | cons kv tl ih =>
    have h1 : kv.1 ≠ k := by
      intro e
      exact h (by rw [List.map_cons, ← e]; exact List.mem_cons_self _ _)
    have h2 : k ∉ tl.map Prod.fst := by
      intro m
      exact h (by rw [List.map_cons]; exact List.mem_cons_of_mem _ m)
    simp [lookupKey, h1, ih h2]

theorem lookupKey_dictUpdate (k : String) (d ov : List (String × PyValue))
    (h : (ov.map Prod.fst).Nodup) :
    lookupKey k (dictUpdate d ov) =
      Option.orElse (lookupKey k ov) (fun _ => lookupKey k d) := by
  induction ov generalizing d with
  | nil => simp [dictUpdate, lookupKey, Option.orElse]
  | cons kv tl ih =>
    simp only [List.map_cons, List.nodup_cons] at h
    have step : dictUpdate d (kv :: tl) = dictUpdate (dictSet d kv.1 kv.2) tl := rfl
    rw [step, ih (dictSet d kv.1 kv.2) h.2]
    by_cases hk : kv.1 = k
    · subst hk
      rw [lookupKey_eq_none_of_not_mem kv.1 tl h.1]
      simp [lookupKey, lookupKey_dictSet_self, Option.orElse]
    · rw [lookupKey_dictSet_other kv.1 k kv.2 d (Ne.symm hk)]
      simp [lookupKey, hk, Option.orElse]

/-- `ZeroDivisionError`: built-in, no inspectable signature, an `Exception`. -/
def zeroDivisionErrorType : PyExcType :=
  ⟨"ZeroDivisionError", Option.none, true⟩

/-- The exception raised by `1 / 0`. -/
def demoExc : PyExc :=
  ⟨zeroDivisionErrorType, [PyValue.str "division by zero"], [],
    "division by zero", some 1⟩

/-- A custom exception type with an inspectable signature: positional
message plus a keyword-only `code` parameter. -/
def customErrorType : PyExcType :=
  ⟨"MyError",
    some [⟨"msg", ParamKind.positionalOrKeyword⟩, ⟨"code", ParamKind.keywordOnly⟩],
    true⟩

/-- An instance of `customErrorType`: raised as
`MyError("boom", 7, code=3)`, so `args = ("boom", 7)` and `code` readable
back as an attribute. -/
def customExc : PyExc :=
  ⟨customErrorType, [PyValue.str "boom", PyValue.int 7],
    [("code", PyValue.int 3)], "boom", some 5⟩

/-- `KeyboardInterrupt`: a `BaseException` that is not an `Exception`. -/
def keyboardInterruptType : PyExcType :=
  ⟨"KeyboardInterrupt", Option.none, false⟩

/-- A raised `KeyboardInterrupt` instance. -/
def keyboardInterrupt : PyExc :=
  ⟨keyboardInterruptType, [], [], "", Option.none⟩

/-- A network failure raised by the OpenAI client. -/
def networkErrorType : PyExcType :=
  ⟨"APIConnectionError", Option.none, true⟩

/-- A raised connection error instance. -/
def networkError : PyExc :=
  ⟨networkErrorType, [PyValue.str "Connection error"], [],
    "Connection error", Option.none⟩

/-- Demo credentials for concrete runs. -/
def demoCreds : OpenAICredentials :=
  ⟨"my-api-key", Option.none⟩

/-- A `CompletionModel` block at its defaults, for concrete runs. -/
def demoModel : CompletionModel :=
  CompletionModel.withDefaults demoCreds

/-- A completion response whose first choice carries the interpretation text
of the spec's worked scenario, padded with whitespace. -/
def demoResponse : Response :=
  ⟨[⟨" division has no solution here "⟩], ⟨9⟩⟩

/-- An environment where the block loads and the completion call succeeds
with `demoResponse`. -/
def demoEnv : ApiEnv :=
  ⟨fun _ => Except.ok demoModel, fun _ _ => Except.ok demoResponse⟩

/-- An environment where the block loads but the completion request raises a
connection error. -/
def failingSubmitEnv : ApiEnv :=
  ⟨fun _ => Except.ok demoModel, fun _ _ => Except.error networkError⟩

/-- C1: for every exception intercepted by the wrapper, when the
interpretation call succeeds (the block loads, the request returns, and the
response has a first choice), the first constructor argument of the newly
raised exception is `str(exc)` followed by a newline, `"OpenAI: "`, and the
first choice's text stripped of leading and trailing whitespace. -/
theorem interpreted_message_eq (env : ApiEnv) (block_name : String)
    (exc : PyExc) (cm : CompletionModel) (resp : Response) (c : Choice)
    (cs : List Choice)
    (hload : env.load block_name = Except.ok cm)
    (hsubmit : submit_prompt cm env (promptFor exc) [] = Except.ok resp)
    (hchoices : resp.choices = c :: cs) :
    (raiseInterpretedExc env block_name exc).exc.args.head? =
      some (PyValue.str (exc.strForm ++ "\nOpenAI: " ++ pyStrip c.text)) := by
  simp [raiseInterpretedExc, hload, hsubmit, hchoices, construct]

/-- Witness for C1: the spec's worked scenario — `ZeroDivisionError` with
`str` form `"division by zero"` and choice text
`" division has no solution here "` yields exactly the predicted message. -/
theorem interpreted_message_eq_witness :
    (raiseInterpretedExc demoEnv "curie" demoExc).exc.args.head? =
      some (PyValue.str "division by zero\nOpenAI: division has no solution here") := by
  have h := interpreted_message_eq demoEnv "curie" demoExc demoModel
    demoResponse ⟨" division has no solution here "⟩ [] rfl rfl rfl
  rw [h]
  rfl

/-- C2: for every intercepted exception whose runtime type has an
inspectable constructor signature, the exception raised in its place on the
successful interpretation path has exactly the original runtime type. (The
reconstruction call of line 195 names `exc_type = type(exc)` directly.) -/
theorem reinterpreted_type_preserved (env : ApiEnv) (block_name : String)
    (exc : PyExc) (sig : List SigParam) (cm : CompletionModel)
    (resp : Response) (c : Choice) (cs : List Choice)
    (hsig : exc.ty.signature = some sig)
    (hload : env.load block_name = Except.ok cm)
    (hsubmit : submit_prompt cm env (promptFor exc) [] = Except.ok resp)
    (hchoices : resp.choices = c :: cs) :
    (raiseInterpretedExc env block_name exc).exc.ty = exc.ty := by
  simp [raiseInterpretedExc, hload, hsubmit, hchoices, construct]

/-- Witness for C2: the custom exception with an inspectable signature keeps
its type through reinterpretation. -/
theorem reinterpreted_type_preserved_witness :
    (raiseInterpretedExc demoEnv "curie" customExc).exc.ty = customErrorType :=
  reinterpreted_type_preserved demoEnv "curie" customExc
    [⟨"msg", ParamKind.positionalOrKeyword⟩, ⟨"code", ParamKind.keywordOnly⟩]
    demoModel demoResponse ⟨" division has no solution here "⟩ [] rfl rfl rfl rfl

/-- C3: for every intercepted exception, when the reinterpretation path
succeeds, the raise on line 195 carries `from exc`: the new exception's
explicitly set cause is the original exception instance. -/
theorem reinterpreted_cause_is_original (env : ApiEnv) (block_name : String)
    (exc : PyExc) (cm : CompletionModel) (resp : Response) (c : Choice)
    (cs : List Choice)
    (hload : env.load block_name = Except.ok cm)
    (hsubmit : submit_prompt cm env (promptFor exc) [] = Except.ok resp)
    (hchoices : resp.choices = c :: cs) :
    (raiseInterpretedExc env block_name exc).cause = some exc := by
  simp [raiseInterpretedExc, hload, hsubmit, hchoices]

/-- Witness for C3: the demo run sets the cause to the original
`ZeroDivisionError` instance. -/
theorem reinterpreted_cause_is_original_witness :
    (raiseInterpretedExc demoEnv "curie" demoExc).cause = some demoExc :=
  reinterpreted_cause_is_original demoEnv "curie" demoExc demoModel
    demoResponse ⟨" division has no solution here "⟩ [] rfl rfl rfl

/-- C4: `submit_prompt` issues its single request with the parameter map
built from the block's six configured defaults overlaid with the caller's
keyword overrides, a caller-supplied value winning every key collision; in
particular the defaults `model="text-curie-001"`, `temperature=0.5`,
`max_tokens=16` with override `max_tokens=50` give effective parameters
`model="text-curie-001"`, `temperature=0.5`, `max_tokens=50`, and the
remaining defaults. -/
theorem submit_prompt_override_wins (cm : CompletionModel) (env : ApiEnv)
    (prompt : String) (ov : List (String × PyValue)) (k : String)
    (hnd : (ov.map Prod.fst).Nodup) :
    submit_prompt cm env prompt ov = env.acreate prompt (effectiveParams cm ov) ∧
    lookupKey k (effectiveParams cm ov) =
      Option.orElse (lookupKey k ov)
        (fun _ => lookupKey k (completionDefaults cm)) ∧
    effectiveParams demoModel [("max_tokens", PyValue.int 50)] =
      [("model", PyValue.str "text-curie-001"),
       ("temperature", PyValue.float 0.5),
       ("max_tokens", PyValue.int 50),
       ("suffix", PyValue.none),
       ("echo", PyValue.bool false),
       ("timeout", PyValue.none)] := by
  exact ⟨rfl, lookupKey_dictUpdate k (completionDefaults cm) ov hnd, rfl⟩

/-- Witness for C4: at the spec's scenario, the override wins on
`max_tokens` and the untouched default survives on `model`. -/
theorem submit_prompt_override_wins_witness :
    lookupKey "max_tokens"
        (effectiveParams demoModel [("max_tokens", PyValue.int 50)]) =
      some (PyValue.int 50) ∧
    lookupKey "model"
        (effectiveParams demoModel [("max_tokens", PyValue.int 50)]) =
      some (PyValue.str "text-curie-001") := by
  have h1 := submit_prompt_override_wins demoModel demoEnv "hello"
    [("max_tokens", PyValue.int 50)] "max_tokens" (by decide)
  have h2 := submit_prompt_override_wins demoModel demoEnv "hello"
    [("max_tokens", PyValue.int 50)] "model" (by decide)
  exact ⟨h1.2.1.trans rfl, h2.2.1.trans rfl⟩

/-- C5: the inner `decorator` raises `ValueError` at decoration time when
handed a Prefect `Flow` or `Task`, before anything runs, and returns the
appropriate wrapper for a plain sync or async callable without raising. -/
theorem decorator_rejects_flow_task :
    decorator FnKind.flow = Except.error interpretNestedError ∧
    decorator FnKind.task = Except.error interpretNestedError ∧
    decorator FnKind.plainSync = Except.ok WrapperChoice.sync ∧
    decorator FnKind.plainAsync = Except.ok WrapperChoice.async :=
  ⟨rfl, rfl, rfl, rfl⟩

/-- C6: when the interpretation path itself fails — the block load raises,
or the completion request raises — that new failure propagates from both
wrappers in place of the original exception, without an explicit cause but
with the original attached as the implicit context, so the chained failure
report still reaches the original. -/
theorem interpretation_failure_masks (env : ApiEnv) (block_name : String)
    (exc f : PyExc)
    (hexc : exc.ty.isExceptionSubclass = true)
    (hfail : env.load block_name = Except.error f ∨
      ∃ cm, env.load block_name = Except.ok cm ∧
        submit_prompt cm env (promptFor exc) [] = Except.error f) :
    sync_wrapper env block_name (CallOutcome.raises exc) =
      (WrapResult.raised ⟨f, Option.none, some exc⟩ : WrapResult Unit) ∧
    async_wrapper env block_name (CallOutcome.raises exc) =
      (WrapResult.raised ⟨f, Option.none, some exc⟩ : WrapResult Unit) ∧
    (Raised.mk f Option.none (some exc)).chainedCause = some exc := by
  have hr : raiseInterpretedExc env block_name exc =
      ⟨f, Option.none, some exc⟩ := by
    rcases hfail with h | ⟨cm, h1, h2⟩
    · simp [raiseInterpretedExc, h]
    · simp [raiseInterpretedExc, h1, h2]
  refine ⟨?_, ?_, rfl⟩ <;> simp [sync_wrapper, async_wrapper, hexc, hr]

/-- Witness for C6: a connection error during the interpretation request
propagates instead of the `ZeroDivisionError`, which stays as context. -/
theorem interpretation_failure_masks_witness :
    sync_wrapper failingSubmitEnv "curie" (CallOutcome.raises demoExc) =
      (WrapResult.raised ⟨networkError, Option.none, some demoExc⟩ :
        WrapResult Unit) :=
  (interpretation_failure_masks failingSubmitEnv "curie" demoExc networkError
    rfl (Or.inr ⟨demoModel, rfl, rfl⟩)).1

/-- C7: when the exception type's constructor signature cannot be inspected
(`inspect.signature` raises `ValueError`), the recovery falls back to an
empty keyword set locally and the reinterpretation proceeds normally: the
successful path still raises the reconstructed exception, built with no
keyword arguments, chained to the original. -/
theorem introspection_fallback (env : ApiEnv) (block_name : String)
    (exc : PyExc) (cm : CompletionModel) (resp : Response) (c : Choice)
    (cs : List Choice)
    (hsig : exc.ty.signature = Option.none)
    (hload : env.load block_name = Except.ok cm)
    (hsubmit : submit_prompt cm env (promptFor exc) [] = Except.ok resp)
    (hchoices : resp.choices = c :: cs) :
    recoverKwargs exc = [] ∧
    raiseInterpretedExc env block_name exc =
      ⟨{ construct exc.ty
          (PyValue.str (exc.strForm ++ "\nOpenAI: " ++ pyStrip c.text)
            :: exc.args.drop 1) [] with tb := exc.tb },
        some exc, some exc⟩ := by
  have hk : recoverKwargs exc = [] := by simp [recoverKwargs, hsig]
  refine ⟨hk, ?_⟩
  simp [raiseInterpretedExc, hk, hload, hsubmit, hchoices]

/-- Witness for C7: `ZeroDivisionError` has no inspectable signature; the
reinterpretation still happens, with no keyword arguments on the rebuilt
exception. -/
theorem introspection_fallback_witness :
    recoverKwargs demoExc = [] ∧
    (raiseInterpretedExc demoEnv "curie" demoExc).exc.attrs = [] := by
  have h := introspection_fallback demoEnv "curie" demoExc demoModel
    demoResponse ⟨" division has no solution here "⟩ [] rfl rfl rfl rfl
  refine ⟨h.1, ?_⟩
  rw [h.2]
  rfl

/-- C8: the synchronous and asynchronous wrappers are equivalent on the
failure path — for the same raised exception and the same interpretation
environment, the exceptions they finally raise carry identical messages. -/
theorem sync_async_parity (env : ApiEnv) (block_name : String) (exc : PyExc)
    (hexc : exc.ty.isExceptionSubclass = true) :
    (sync_wrapper env block_name (CallOutcome.raises exc) :
        WrapResult Unit).raisedMessage =
      (async_wrapper env block_name (CallOutcome.raises exc) :
        WrapResult Unit).raisedMessage :=
  rfl

/-- Witness for C8: parity at the demo `ZeroDivisionError` run. -/
theorem sync_async_parity_witness :
    (sync_wrapper demoEnv "curie" (CallOutcome.raises demoExc) :
        WrapResult Unit).raisedMessage =
      (async_wrapper demoEnv "curie" (CallOutcome.raises demoExc) :
        WrapResult Unit).raisedMessage :=
  sync_async_parity demoEnv "curie" demoExc rfl

/-- C9: the replacement exception is built by calling the original runtime
type with the new message first, then the original positional arguments
minus index 0, then the keyword-only parameters recovered by attribute
lookup of each parameter name on the original instance. -/
theorem reconstruction_call_shape (env : ApiEnv) (block_name : String)
    (exc : PyExc) (sig : List SigParam) (cm : CompletionModel)
    (resp : Response) (c : Choice) (cs : List Choice)
    (hsig : exc.ty.signature = some sig)
    (hload : env.load block_name = Except.ok cm)
    (hsubmit : submit_prompt cm env (promptFor exc) [] = Except.ok resp)
    (hchoices : resp.choices = c :: cs) :
    (raiseInterpretedExc env block_name exc).exc.args =
      PyValue.str (exc.strForm ++ "\nOpenAI: " ++ pyStrip c.text)
        :: exc.args.drop 1 ∧
    (raiseInterpretedExc env block_name exc).exc.attrs =
      (sig.filter (fun p => p.kind = ParamKind.keywordOnly)).map
        (fun p => (p.name, getattrOrNone exc p.name)) := by
  constructor <;>
    simp [raiseInterpretedExc, recoverKwargs, hsig, hload, hsubmit,
      hchoices, construct]

/-- Witness for C9: `MyError("boom", 7, code=3)` is rebuilt as
`MyError(new_msg, 7, code=3)`. -/
theorem reconstruction_call_shape_witness :
    (raiseInterpretedExc demoEnv "curie" customExc).exc.args =
      [PyValue.str "boom\nOpenAI: division has no solution here",
        PyValue.int 7] ∧
    (raiseInterpretedExc demoEnv "curie" customExc).exc.attrs =
      [("code", PyValue.int 3)] := by
  have h := reconstruction_call_shape demoEnv "curie" customExc
    [⟨"msg", ParamKind.positionalOrKeyword⟩, ⟨"code", ParamKind.keywordOnly⟩]
    demoModel demoResponse ⟨" division has no solution here "⟩ []
    rfl rfl rfl rfl
  exact ⟨h.1.trans (by decide), h.2.trans (by decide)⟩

/-- C10: a raised value that `except Exception` does not catch (a bare
`BaseException` such as `KeyboardInterrupt`) passes through both wrappers
unchanged, with no chain information added; the result does not mention the
environment at all, so no block load or interpretation request takes part
in it. -/
theorem base_exception_passthrough (env : ApiEnv) (block_name : String)
    (exc : PyExc) (hexc : exc.ty.isExceptionSubclass = false) :
    sync_wrapper env block_name (CallOutcome.raises exc) =
      (WrapResult.raised ⟨exc, Option.none, Option.none⟩ : WrapResult Unit) ∧
    async_wrapper env block_name (CallOutcome.raises exc) =
      (WrapResult.raised ⟨exc, Option.none, Option.none⟩ : WrapResult Unit) := by
  constructor <;> simp [sync_wrapper, async_wrapper, hexc]

/-- Witness for C10: `KeyboardInterrupt` propagates unchanged. -/
theorem base_exception_passthrough_witness :
    sync_wrapper demoEnv "curie" (CallOutcome.raises keyboardInterrupt) =
      (WrapResult.raised ⟨keyboardInterrupt, Option.none, Option.none⟩ :
        WrapResult Unit) :=
  (base_exception_passthrough demoEnv "curie" keyboardInterrupt rfl).1
